import Mathlib

/-!
Verification of the VaultDue reminder scheduling and delivery engine.

The definitions below are a shallow embedding of the worker-side reminder
subsystem (`src/worker/services/notificationService.ts` — the
`NotificationService` transports and the `ReminderService` orchestrator —
and the scheduled-job wrapper in `src/worker/index.ts`).

Modelling conventions:
- Calendar dates are integers (epoch day numbers). Both `expiration_date`
  and `today` are date-only values parsed at midnight UTC in the source, so
  `Math.ceil((exp - today) / 86400000)` is the exact integer difference;
  the embedding computes `expiration_date - today` directly.
- JS falsy defaulting (`x || d`) on nullable strings is `jsOrString`.
- Optional transport credentials are booleans recording presence.
- External effects (HTTP fetch, D1 statements) are driven by explicit
  oracle values describing the outcome of each call; a thrown JS exception
  is modelled with `Except.error`, carrying the database state at the
  point of the throw (writes already performed persist). A source-level
  `try`/`catch` is modelled by collapsing `Except.error` back to a normal
  result.
- Database side effects are a `DBState` record (the `reminders` and
  `activity_logs` tables), threaded explicitly.
- Each transport records the delivery attempts it actually performs (the
  fetch calls it reaches) in an `Attempt` trace; message bodies, subjects
  and HTML templates do not influence any control flow, result or stored
  row, and are not modelled.
-/

namespace VaultDue

/-! ## Phone normalization (`NotificationService.formatPhoneNumber`) -/

/-- One application of the regex `^(\+|00)` on the digit string: remove a
leading `+`, or else a leading `00` (the regex alternation tries `+` first). -/
def stripLeadingPlusOr00 (l : List Char) : List Char :=
  match l with
  | '+' :: rest => rest
  | '0' :: '0' :: rest => rest
  | _ => l

/-- Core of `formatPhoneNumber` over character lists: keep the digits, strip
a leading `+` or `00`, prefix `91` when exactly 10 digits remain, and reject
(empty result) when the final length is outside 10..15. -/
def formatPhoneDigits (l : List Char) : List Char :=
  let cleaned := l.filter Char.isDigit
  let cleaned2 := stripLeadingPlusOr00 cleaned
  let cleaned3 := if cleaned2.length = 10 then '9' :: '1' :: cleaned2 else cleaned2
  if cleaned3.length < 10 ∨ cleaned3.length > 15 then [] else cleaned3

/-- `NotificationService.formatPhoneNumber`: the `if (!phoneNumber) return ''`
guard, then the digit filter / international-prefix strip / country-code
default / length validation. -/
def formatPhoneNumber (phoneNumber : String) : String :=
  if phoneNumber = "" then ""
  else String.mk (formatPhoneDigits phoneNumber.data)

/-- The normalized digit string before the country-code default is applied:
digits of the input with a leading `+` or `00` removed. Used to state the
normalization claim. -/
def normalizedPhoneDigits (s : String) : List Char :=
  stripLeadingPlusOr00 (s.data.filter Char.isDigit)

/-! ## Reminder policy (`ReminderService.shouldSendReminder` /
`ReminderService.getReminderType`) -/

/-- JS falsy defaulting for nullable string fields: `v || dflt` (both
`null`/`undefined` and the empty string fall back to the default). -/
def jsOrString (v : Option String) (dflt : String) : String :=
  match v with
  | none => dflt
  | some s => if s = "" then dflt else s

/-- The `reminderDays` record lookup `reminderDays[frequency]`: `some` of the
threshold list for the five known frequencies, `none` otherwise. -/
def reminderDaysLookup (frequency : String) : Option (List Int) :=
  if frequency = "30_days" then some [30, 14, 7, 3, 1, 0]
  else if frequency = "14_days" then some [14, 7, 3, 1, 0]
  else if frequency = "7_days" then some [7, 3, 1, 0]
  else if frequency = "3_days" then some [3, 1, 0]
  else if frequency = "1_day" then some [1, 0]
  else none

/-- One joined row of the orchestrator's candidate query: document columns,
the owner's email, and the LEFT-JOINed profile columns (nullable). -/
structure DocRow where
  id : Int
  user_id : String
  title : String
  expiration_date : Int
  is_critical : Bool
  email : String
  phone_number : Option String
  preferred_reminder_channel : Option String
  reminder_frequency : Option String
  deriving DecidableEq

/-- `ReminderService.shouldSendReminder`: expired documents are always due;
otherwise the frequency (defaulted to `30_days` when falsy) selects a
threshold list (unknown keys fall back to the `30_days` list via
`|| reminderDays['30_days']`), and the document is due iff `daysUntilExpiry`
is in that list. -/
def shouldSendReminder (doc : DocRow) (daysUntilExpiry : Int) : Bool :=
  if daysUntilExpiry < 0 then true
  else
    let frequency := jsOrString doc.reminder_frequency "30_days"
    let daysToRemind := (reminderDaysLookup frequency).getD [30, 14, 7, 3, 1, 0]
    daysToRemind.contains daysUntilExpiry

/-- `ReminderService.getReminderType`: the urgency tier stored as
`reminder_type`. -/
def getReminderType (daysUntilExpiry : Int) : String :=
  if daysUntilExpiry < 0 then "expired"
  else if daysUntilExpiry = 0 then "expires_today"
  else if daysUntilExpiry ≤ 3 then "expires_soon"
  else if daysUntilExpiry ≤ 7 then "expires_week"
  else if daysUntilExpiry ≤ 14 then "expires_two_weeks"
  else "expires_month"

/-- Threshold set of a frequency as the specification words it: the five
known frequencies map to their listed sets, an unknown or missing frequency
is treated as the `30_days` set. Written from the spec for comparison with
`shouldSendReminder`. -/
def thresholdSetSpec (frequency : Option String) : List Int :=
  match frequency with
  | none => [30, 14, 7, 3, 1, 0]
  | some s =>
    if s = "30_days" then [30, 14, 7, 3, 1, 0]
    else if s = "14_days" then [14, 7, 3, 1, 0]
    else if s = "7_days" then [7, 3, 1, 0]
    else if s = "3_days" then [3, 1, 0]
    else if s = "1_day" then [1, 0]
    else [30, 14, 7, 3, 1, 0]

/-- Urgency classifier as the claim words it: negative to `expired`, 0 to
`expires_today`, 1..3 to `expires_soon`, 4..7 to `expires_week`, 8..14 to
`expires_two_weeks`, everything greater to `expires_month`. Written from the
spec for comparison with `getReminderType`. -/
def classifyUrgencySpec (d : Int) : String :=
  if d < 0 then "expired"
  else if d = 0 then "expires_today"
  else if 1 ≤ d ∧ d ≤ 3 then "expires_soon"
  else if 4 ≤ d ∧ d ≤ 7 then "expires_week"
  else if 8 ≤ d ∧ d ≤ 14 then "expires_two_weeks"
  else "expires_month"

/-! ## Notification transports (`NotificationService`) -/

/-- Outcome of one outbound `fetch` call (the only effect a transport
performs after its credential and destination checks): the call threw, it
resolved with a non-2xx response, or it resolved OK. -/
inductive FetchResult
  | throws
  | notOk
  | ok
  deriving DecidableEq

/-- Delivery channel of a recorded transport attempt. -/
inductive Channel
  | whatsapp
  | sms
  | email
  deriving DecidableEq

/-- One delivery attempt actually performed (a fetch the transport reached),
with the destination it was addressed to (`payload.to`; named `toAddr` since
`to` is reserved). -/
structure Attempt where
  channel : Channel
  toAddr : String
  deriving DecidableEq

/-- Presence of the optional transport credentials in the worker `Env`
(`!this.env.X` falsy checks on optional string bindings). -/
structure WorkerEnv where
  whatsappAccessToken : Bool
  whatsappPhoneNumberId : Bool
  twilioAccountSid : Bool
  twilioAuthToken : Bool
  twilioPhoneNumber : Bool
  resendApiKey : Bool
  deriving DecidableEq

/-- `NotificationService.sendWhatsAppNotification`: credential check, phone
normalization, then one fetch. The whole body is wrapped in `try`/`catch`
returning `false`, so every outcome — including a thrown fetch — collapses
to a boolean and the function never throws. Returns the result together
with the attempts performed. -/
def sendWhatsAppNotification (env : WorkerEnv) (fetchResult : FetchResult)
    (toAddr : String) : Bool × List Attempt :=
  if !env.whatsappAccessToken || !env.whatsappPhoneNumberId then (false, [])
  else
    let phoneNumber := formatPhoneNumber toAddr
    if phoneNumber = "" then (false, [])
    else
      match fetchResult with
      | FetchResult.throws => (false, [⟨Channel.whatsapp, phoneNumber⟩])
      | FetchResult.notOk => (false, [⟨Channel.whatsapp, phoneNumber⟩])
      | FetchResult.ok => (true, [⟨Channel.whatsapp, phoneNumber⟩])

/-- `NotificationService.sendSMSNotification`: Twilio credential check, phone
normalization, one fetch; fully caught, never throws. -/
def sendSMSNotification (env : WorkerEnv) (fetchResult : FetchResult)
    (toAddr : String) : Bool × List Attempt :=
  if !env.twilioAccountSid || !env.twilioAuthToken || !env.twilioPhoneNumber then (false, [])
  else
    let phoneNumber := formatPhoneNumber toAddr
    if phoneNumber = "" then (false, [])
    else
      match fetchResult with
      | FetchResult.throws => (false, [⟨Channel.sms, phoneNumber⟩])
      | FetchResult.notOk => (false, [⟨Channel.sms, phoneNumber⟩])
      | FetchResult.ok => (true, [⟨Channel.sms, phoneNumber⟩])

/-- `NotificationService.sendEmailNotification`: Resend key check, one fetch
addressed to `payload.to` (no normalization); fully caught, never throws. -/
def sendEmailNotification (env : WorkerEnv) (fetchResult : FetchResult)
    (toAddr : String) : Bool × List Attempt :=
  if !env.resendApiKey then (false, [])
  else
    match fetchResult with
    | FetchResult.throws => (false, [⟨Channel.email, toAddr⟩])
    | FetchResult.notOk => (false, [⟨Channel.email, toAddr⟩])
    | FetchResult.ok => (true, [⟨Channel.email, toAddr⟩])

/-! ## Orchestrator (`ReminderService`) -/

/-- Oracle for the (at most one) fetch each transport could perform during
one `sendNotification` call. -/
structure SendOracle where
  whatsappFetch : FetchResult
  smsFetch : FetchResult
  emailFetch : FetchResult
  deriving DecidableEq

/-- `ReminderService.getNotificationAddress`: phone for `whatsapp`/`sms`,
email for `email` and any other channel value, with `|| ''` defaulting. -/
def getNotificationAddress (doc : DocRow) (channel : String) : String :=
  if channel = "whatsapp" ∨ channel = "sms" then jsOrString doc.phone_number ""
  else doc.email

/-- `ReminderService.sendNotification`. The empty-address guard before the
`switch` returns `false` outright, so the `case 'whatsapp'` inner fallback
(`if (!payload.to) ... sendEmailNotification`) is unreachable; it is kept
here verbatim. The source wraps the `switch` in `try`/`catch` with an email
fallback, but each transport catches its own exceptions and returns a
boolean, so the awaited calls never throw and the `catch` block is
unreachable; it has no representation in the model (see the C4 analysis). -/
def sendNotification (env : WorkerEnv) (o : SendOracle) (doc : DocRow)
    (daysUntilExpiry : Int) : Bool × List Attempt :=
  let channel := jsOrString doc.preferred_reminder_channel "email"
  let toAddr := getNotificationAddress doc channel
  if toAddr = "" then (false, [])
  else if channel = "whatsapp" then
    if toAddr = "" then sendEmailNotification env o.emailFetch doc.email
    else sendWhatsAppNotification env o.whatsappFetch toAddr
  else if channel = "sms" then sendSMSNotification env o.smsFetch toAddr
  else sendEmailNotification env o.emailFetch toAddr

/-- One row of the `reminders` table. -/
structure ReminderRow where
  id : Int
  document_id : Int
  user_id : String
  reminder_date : Int
  reminder_type : String
  is_sent : Bool
  deriving DecidableEq

/-- One row of the `activity_logs` table (the columns the orchestrator
writes). -/
structure ActivityRow where
  user_id : String
  action_type : String
  description : String
  related_document_id : Option Int
  deriving DecidableEq

/-- The tables the orchestrator writes, plus the autoincrement counter used
for `meta.last_row_id` of an insert. -/
structure DBState where
  reminders : List ReminderRow
  activity_logs : List ActivityRow
  nextReminderId : Int
  deriving DecidableEq

/-- The dedup query `SELECT id FROM reminders WHERE document_id = ? AND
reminder_date = ? AND is_sent = 1` has a nonempty result. -/
def existsSentReminder (s : DBState) (docId : Int) (today : Int) : Bool :=
  s.reminders.any fun r => r.document_id == docId && r.reminder_date == today && r.is_sent

/-- Outcome of the reminder-row INSERT: the statement threw, it resolved
with `success = false` (statement not applied), or it inserted the row. -/
inductive InsertOutcome
  | throws
  | failed
  | inserted
  deriving DecidableEq

/-- Oracle for the external calls of one `processDocumentReminder`
invocation. -/
structure DocOracle where
  send : SendOracle
  dedupQueryThrows : Bool
  insertOutcome : InsertOutcome
  updateThrows : Bool
  logInsertThrows : Bool
  deriving DecidableEq

/-- The `UPDATE reminders SET is_sent = 1 ... WHERE id = ?` statement. -/
def markReminderSent (rows : List ReminderRow) (rowId : Int) : List ReminderRow :=
  rows.map fun r => if r.id == rowId then { r with is_sent := true } else r

/-- Description text of the `reminder_sent` activity-log row. -/
def reminderSentDescription (title : String) (daysUntilExpiry : Int) : String :=
  "Reminder sent for \"" ++ title ++ "\" (" ++ toString daysUntilExpiry ++ " days to expiry)"

/-- Body of `ReminderService.processDocumentReminder` without its
surrounding `try`/`catch`: due-check, dedup query, pending-row insert,
delivery, mark-sent update and activity log. `Except.error` is a thrown
statement, carrying the state at the throw point. -/
def processDocumentReminderBody (env : WorkerEnv) (o : DocOracle) (doc : DocRow)
    (today : Int) (s : DBState) : Except DBState DBState :=
  let daysUntilExpiry := doc.expiration_date - today
  if !(shouldSendReminder doc daysUntilExpiry) then Except.ok s
  else if o.dedupQueryThrows then Except.error s
  else if existsSentReminder s doc.id today then Except.ok s
  else
    match o.insertOutcome with
    | InsertOutcome.throws => Except.error s
    | InsertOutcome.failed => Except.ok s
    | InsertOutcome.inserted =>
      let row : ReminderRow :=
        { id := s.nextReminderId, document_id := doc.id, user_id := doc.user_id,
          reminder_date := today, reminder_type := getReminderType daysUntilExpiry,
          is_sent := false }
      let s1 : DBState :=
        { s with reminders := s.reminders ++ [row], nextReminderId := s.nextReminderId + 1 }
      let sent := (sendNotification env o.send doc daysUntilExpiry).1
      if sent then
        if o.updateThrows then Except.error s1
        else
          let s2 : DBState := { s1 with reminders := markReminderSent s1.reminders row.id }
          if o.logInsertThrows then Except.error s2
          else
            Except.ok { s2 with activity_logs := s2.activity_logs ++
              [{ user_id := doc.user_id, action_type := "reminder_sent",
                 description := reminderSentDescription doc.title daysUntilExpiry,
                 related_document_id := some doc.id }] }
      else Except.ok s1

/-- `ReminderService.processDocumentReminder`: the body with its own
`try`/`catch`, which logs the error and resumes — a throw leaves the state
reached so far and never propagates. -/
def processDocumentReminder (env : WorkerEnv) (o : DocOracle) (doc : DocRow)
    (today : Int) (s : DBState) : DBState :=
  match processDocumentReminderBody env o doc today s with
  | Except.ok s' => s'
  | Except.error s' => s'

/-- The `for (const doc of documents)` loop: sequential per-document
processing, each iteration fully caught. -/
def processDocs (env : WorkerEnv) (docs : List (DocRow × DocOracle)) (today : Int)
    (s : DBState) : DBState :=
  match docs with
  | [] => s
  | (doc, o) :: rest => processDocs env rest today (processDocumentReminder env o doc today s)

/-- Body of `ReminderService.processReminders` without its `try`/`catch`:
the candidate query (which can throw) followed by the loop. -/
def processRemindersBody (env : WorkerEnv) (queryFails : Bool)
    (docs : List (DocRow × DocOracle)) (today : Int) (s : DBState) :
    Except DBState DBState :=
  if queryFails then Except.error s
  else Except.ok (processDocs env docs today s)

/-- `ReminderService.processReminders` (the scheduled pass): the body with
its run-level `try`/`catch`, which logs and returns normally. -/
def processReminders (env : WorkerEnv) (queryFails : Bool)
    (docs : List (DocRow × DocOracle)) (today : Int) (s : DBState) :
    Except DBState DBState :=
  match processRemindersBody env queryFails docs today s with
  | Except.ok s' => Except.ok s'
  | Except.error s' => Except.ok s'

/-- `handleScheduledReminders` in `src/worker/index.ts`: one more
`try`/`catch` around the whole pass at the scheduling-host boundary. -/
def handleScheduledReminders (env : WorkerEnv) (queryFails : Bool)
    (docs : List (DocRow × DocOracle)) (today : Int) (s : DBState) :
    Except DBState DBState :=
  match processReminders env queryFails docs today s with
  | Except.ok s' => Except.ok s'
  | Except.error s' => Except.ok s'

/-- `ReminderService.sendTestReminder`: look up the single document joined
with owner and profile (the query can throw or find nothing), compute
`daysUntilExpiry` against the current time, and call `sendNotification`
directly; the whole body is caught to `false`. `daysUntilExpiry` is the
`Math.ceil` of the difference to the current wall clock, passed here as an
input since the clock is external. The definition threads the database
state to make its frame explicit: the source contains no INSERT or UPDATE. -/
def sendTestReminder (env : WorkerEnv) (o : SendOracle) (queryThrows : Bool)
    (lookupResult : Option DocRow) (daysUntilExpiry : Int) (s : DBState) :
    Bool × DBState :=
  if queryThrows then (false, s)
  else
    match lookupResult with
    | none => (false, s)
    | some doc => ((sendNotification env o doc daysUntilExpiry).1, s)

/-! ## Concrete inputs for closed evaluation and witness theorems -/

/-- Every transport credential configured. -/
def envAll : WorkerEnv :=
  { whatsappAccessToken := true, whatsappPhoneNumberId := true,
    twilioAccountSid := true, twilioAuthToken := true,
    twilioPhoneNumber := true, resendApiKey := true }

/-- All transports healthy. -/
def sendOracleAllOk : SendOracle :=
  { whatsappFetch := FetchResult.ok, smsFetch := FetchResult.ok,
    emailFetch := FetchResult.ok }

/-- WhatsApp API reports failure (non-2xx), email healthy. -/
def sendOracleWhatsAppDown : SendOracle :=
  { whatsappFetch := FetchResult.notOk, smsFetch := FetchResult.ok,
    emailFetch := FetchResult.ok }

/-- Document whose owner prefers whatsapp but has no phone on file, with an
email address available. -/
def docNoPhone : DocRow :=
  { id := 1, user_id := "user-1", title := "Passport", expiration_date := 5,
    is_critical := false, email := "user@example.com", phone_number := none,
    preferred_reminder_channel := some "whatsapp",
    reminder_frequency := some "30_days" }

/-- Same owner with a 10-digit phone on file. -/
def docWithPhone : DocRow :=
  { docNoPhone with phone_number := some "8851670050" }

/-- Email-channel document due at the 7-day threshold. -/
def docEmail7 : DocRow :=
  { id := 10, user_id := "user-2", title := "License", expiration_date := 7,
    is_critical := false, email := "owner@example.com", phone_number := none,
    preferred_reminder_channel := some "email",
    reminder_frequency := some "7_days" }

/-- Empty tables. -/
def emptyDB : DBState :=
  { reminders := [], activity_logs := [], nextReminderId := 1 }

/-- A sent reminder row for document 10 on day 0. -/
def sentRow10 : ReminderRow :=
  { id := 1, document_id := 10, user_id := "user-2", reminder_date := 0,
    reminder_type := "expires_week", is_sent := true }

/-- The `reminder_sent` activity entry the pass writes for `docEmail7`. -/
def sentLogRow10 : ActivityRow :=
  { user_id := "user-2", action_type := "reminder_sent",
    description := reminderSentDescription "License" 7,
    related_document_id := some 10 }

/-- Tables already holding a sent reminder for document 10 on day 0. -/
def dbWithSentRow : DBState :=
  { reminders := [sentRow10], activity_logs := [], nextReminderId := 2 }

/-- Database statements all succeed, transports all healthy. -/
def docOracleHealthy : DocOracle :=
  { send := sendOracleAllOk, dedupQueryThrows := false,
    insertOutcome := InsertOutcome.inserted, updateThrows := false,
    logInsertThrows := false }

/-! ## Helper lemmas -/

/-- A `String.mk` is the empty string exactly when its character list is
empty. -/
lemma stringMk_eq_empty (l : List Char) : String.mk l = "" ↔ l = [] := by
  constructor
  · intro h
    have h2 := congrArg String.data h
    simpa using h2
  · rintro rfl
    rfl

/-- Stripping a leading `+` or `00` only removes elements. -/
lemma mem_stripLeadingPlusOr00 {l : List Char} {c : Char}
    (h : c ∈ stripLeadingPlusOr00 l) : c ∈ l := by
  unfold stripLeadingPlusOr00 at h
  split at h
  · exact List.mem_cons_of_mem _ h
  · exact List.mem_cons_of_mem _ (List.mem_cons_of_mem _ h)
  · exact h

/-- Shape of the phone-normalizer core output: empty, or all digits with
length in 10..15. -/
lemma formatPhoneDigits_shape (l : List Char) :
    formatPhoneDigits l = [] ∨
    ((formatPhoneDigits l).all Char.isDigit = true ∧
     10 ≤ (formatPhoneDigits l).length ∧ (formatPhoneDigits l).length ≤ 15) := by
  have hall : ∀ c ∈ stripLeadingPlusOr00 (l.filter Char.isDigit), Char.isDigit c := by
    intro c hc
    exact List.of_mem_filter (mem_stripLeadingPlusOr00 hc)
  simp only [formatPhoneDigits]
  set N := stripLeadingPlusOr00 (l.filter Char.isDigit) with hN
  by_cases h10 : N.length = 10
  · rw [if_pos h10, if_neg (by simp only [List.length_cons]; omega)]
    right
    refine ⟨?_, by simp [h10], by simp [h10]⟩
    rw [List.all_eq_true]
    intro c hc
    rcases List.mem_cons.mp hc with rfl | hc2
    · decide
    rcases List.mem_cons.mp hc2 with rfl | hc3
    · decide
    · simpa using hall c hc3
  · rw [if_neg h10]
    by_cases hC : N.length < 10 ∨ N.length > 15
    · rw [if_pos hC]
      exact Or.inl rfl
    · rw [if_neg hC]
      push_neg at hC
      right
      refine ⟨?_, hC.1, hC.2⟩
      rw [List.all_eq_true]
      intro c hc
      simpa using hall c hc

/-! ## Claim theorems: pure policy and normalization -/

/-- C2: `shouldSendReminder` returns true iff `daysUntilExpiry < 0` or
`daysUntilExpiry` belongs to the threshold set of the document's frequency
({30,14,7,3,1,0} for `30_days`, {14,7,3,1,0} for `14_days`, {7,3,1,0} for
`7_days`, {3,1,0} for `3_days`, {1,0} for `1_day`), with an unknown or
missing frequency treated as the `30_days` set; in particular it is false
for every nonnegative value outside the set and true for every negative
value regardless of frequency. -/
theorem c2_isReminderDue_characterization (doc : DocRow) (d : Int) :
    shouldSendReminder doc d = true ↔
      d < 0 ∨ d ∈ thresholdSetSpec doc.reminder_frequency := by
  by_cases hd : d < 0
  · simp [shouldSendReminder, hd]
  · rcases hf : doc.reminder_frequency with _ | s
    · simp [shouldSendReminder, thresholdSetSpec, jsOrString, reminderDaysLookup, hd, hf]
    · by_cases h0 : s = ""
      · subst h0
        simp [shouldSendReminder, thresholdSetSpec, jsOrString, reminderDaysLookup, hd, hf]
      · simp only [shouldSendReminder, thresholdSetSpec, jsOrString, hf, hd, if_false,
          if_neg h0, reminderDaysLookup]
        split_ifs <;> simp [hd]

/-- C5: the urgency classifier maps negative values to `expired`, 0 to
`expires_today`, 1..3 to `expires_soon`, 4..7 to `expires_week`, 8..14 to
`expires_two_weeks`, and everything greater to `expires_month`; in
particular at -5, 0, 2, 7, 10 and 20 it yields the listed tiers. -/
theorem c5_urgency_classification :
    (∀ d : Int, getReminderType d = classifyUrgencySpec d) ∧
    getReminderType (-5) = "expired" ∧
    getReminderType 0 = "expires_today" ∧
    getReminderType 2 = "expires_soon" ∧
    getReminderType 7 = "expires_week" ∧
    getReminderType 10 = "expires_two_weeks" ∧
    getReminderType 20 = "expires_month" := by
  refine ⟨fun d => ?_, by decide, by decide, by decide, by decide, by decide, by decide⟩
  unfold getReminderType classifyUrgencySpec
  split_ifs <;> first | rfl | (exfalso; omega)

/-- C6: phone normalization keeps only digits and strips a leading `+` or
`00` (`normalizedPhoneDigits`); the result is rejected (empty string)
exactly when that normalized digit string has length outside 10..15, and
when exactly 10 digits remain the default country code 91 is prefixed; in
particular "8851670050" normalizes to "918851670050", "+91 88516 70050"
normalizes to "918851670050", and "123" is rejected. -/
theorem c6_phone_normalization :
    (∀ s : String,
       (formatPhoneNumber s = "" ↔
         ((normalizedPhoneDigits s).length < 10 ∨ 15 < (normalizedPhoneDigits s).length)) ∧
       ((normalizedPhoneDigits s).length = 10 →
         formatPhoneNumber s = String.mk ('9' :: '1' :: normalizedPhoneDigits s))) ∧
    formatPhoneNumber "8851670050" = "918851670050" ∧
    formatPhoneNumber "+91 88516 70050" = "918851670050" ∧
    formatPhoneNumber "123" = "" := by
  refine ⟨fun s => ?_, by decide, by decide, by decide⟩
  by_cases hs : s = ""
  · subst hs
    exact ⟨by decide, by decide⟩
  · have hfp : formatPhoneNumber s = String.mk (formatPhoneDigits s.data) := by
      simp [formatPhoneNumber, hs]
    have hNd : normalizedPhoneDigits s = stripLeadingPlusOr00 (s.data.filter Char.isDigit) := rfl
    constructor
    · rw [hfp, stringMk_eq_empty, hNd]
      simp only [formatPhoneDigits]
      set N := stripLeadingPlusOr00 (s.data.filter Char.isDigit) with hN
      by_cases h10 : N.length = 10
      · rw [if_pos h10, if_neg (by simp only [List.length_cons]; omega)]
        simp [h10]
      · rw [if_neg h10]
        by_cases hC : N.length < 10 ∨ N.length > 15
        · rw [if_pos hC]
          simpa using hC
        · rw [if_neg hC]
          push_neg at hC
          constructor
          · intro hNil
            rw [hNil] at hC
            simp at hC
          · intro habs
            exact absurd habs (by omega)
    · intro h10
      rw [hfp]
      rw [hNd] at h10 ⊢
      have hlist : formatPhoneDigits s.data =
          '9' :: '1' :: stripLeadingPlusOr00 (s.data.filter Char.isDigit) := by
        simp only [formatPhoneDigits]
        rw [if_pos h10, if_neg (by simp only [List.length_cons]; omega)]
      rw [hlist]

/-- C10: for every input string the phone normalizer returns either the
empty string or a string of decimal digits only whose length lies in
10..15. -/
theorem c10_normalizer_output_shape (s : String) :
    formatPhoneNumber s = "" ∨
    ((formatPhoneNumber s).data.all Char.isDigit = true ∧
     10 ≤ (formatPhoneNumber s).length ∧ (formatPhoneNumber s).length ≤ 15) := by
  by_cases hs : s = ""
  · left
    simp [formatPhoneNumber, hs]
  · have hfp : formatPhoneNumber s = String.mk (formatPhoneDigits s.data) := by
      simp [formatPhoneNumber, hs]
    rw [hfp]
    rcases formatPhoneDigits_shape s.data with h | ⟨h1, h2, h3⟩
    · left
      rw [h]
    · right
      exact ⟨h1, h2, h3⟩

/-- Marking one row id as sent leaves a list without that id unchanged. -/
lemma markReminderSent_fresh (l : List ReminderRow) (rid : Int)
    (h : ∀ r ∈ l, r.id ≠ rid) : markReminderSent l rid = l := by
  unfold markReminderSent
  induction l with
  | nil => rfl
  | cons a t ih =>
    have ha : (a.id == rid) = false :=
      beq_eq_false_iff_ne.mpr (h a (List.mem_cons_self a t))
    have ht := ih fun r hr => h r (List.mem_cons_of_mem a hr)
    simp only [List.map_cons, ht]
    rw [if_neg (by simp [ha])]

/-- Marking a freshly appended unsent row as sent flips exactly that row. -/
lemma markReminderSent_append_fresh (l : List ReminderRow) (rid did : Int)
    (uid : String) (rdate : Int) (rtype : String)
    (h : ∀ r ∈ l, r.id ≠ rid) :
    markReminderSent
      (l ++ [{ id := rid, document_id := did, user_id := uid,
               reminder_date := rdate, reminder_type := rtype, is_sent := false }]) rid =
      l ++ [{ id := rid, document_id := did, user_id := uid,
              reminder_date := rdate, reminder_type := rtype, is_sent := true }] := by
  have h1 := markReminderSent_fresh l rid h
  unfold markReminderSent at h1 ⊢
  rw [List.map_append, h1]
  simp

/-! ## Claim theorems: orchestrator -/

/-- C1: if a sent reminder row for (document, today) already exists, running
the per-document pass again leaves the database state completely unchanged —
no second sent reminder row and no second ActivityLog entry — whatever the
transports and remaining statements would have done. -/
theorem c1_sent_reminder_idempotent (env : WorkerEnv) (o : DocOracle) (doc : DocRow)
    (today : Int) (s : DBState)
    (h : existsSentReminder s doc.id today = true) :
    processDocumentReminder env o doc today s = s := by
  cases hdue : shouldSendReminder doc (doc.expiration_date - today) <;>
    cases ho : o.dedupQueryThrows <;>
      simp [processDocumentReminder, processDocumentReminderBody, hdue, ho, h]

/-- C1 witness: a concrete state with a sent row for document 10 today is
untouched by a second pass. -/
theorem c1_witness :
    processDocumentReminder envAll docOracleHealthy docEmail7 0 dbWithSentRow =
      dbWithSentRow :=
  c1_sent_reminder_idempotent envAll docOracleHealthy docEmail7 0 dbWithSentRow
    (by decide)

/-- C7: the scheduled pass never propagates an exception: for every
repository/transport oracle — including a failing candidate query and
arbitrary per-document failures — `processReminders` and the scheduled-job
wrapper both return normally. -/
theorem c7_pass_never_throws (env : WorkerEnv) (queryFails : Bool)
    (docs : List (DocRow × DocOracle)) (today : Int) (s : DBState) :
    ∃ s' : DBState,
      processReminders env queryFails docs today s = Except.ok s' ∧
      handleScheduledReminders env queryFails docs today s = Except.ok s' := by
  by_cases hq : queryFails
  · exact ⟨s, by simp [processReminders, processRemindersBody, hq],
      by simp [handleScheduledReminders, processReminders, processRemindersBody, hq]⟩
  · exact ⟨processDocs env docs today s,
      by simp [processReminders, processRemindersBody, hq],
      by simp [handleScheduledReminders, processReminders, processRemindersBody, hq]⟩

/-- C8: for a due, not-yet-sent document whose statements succeed, the pass
appends one reminder row; when the transport reports failure the row stays
`is_sent = false` and the activity log is untouched, and exactly when it
reports success the row is flipped to `is_sent = true` and exactly one
`reminder_sent` ActivityLog entry is appended. -/
theorem c8_row_and_log_iff_success (env : WorkerEnv) (o : DocOracle) (doc : DocRow)
    (today : Int) (s : DBState)
    (hdue : shouldSendReminder doc (doc.expiration_date - today) = true)
    (hnodup : existsSentReminder s doc.id today = false)
    (hq : o.dedupQueryThrows = false)
    (hins : o.insertOutcome = InsertOutcome.inserted)
    (hupd : o.updateThrows = false)
    (hlog : o.logInsertThrows = false)
    (hfresh : ∀ r ∈ s.reminders, r.id ≠ s.nextReminderId) :
    processDocumentReminder env o doc today s =
      if (sendNotification env o.send doc (doc.expiration_date - today)).1 = true then
        { reminders := s.reminders ++
            [{ id := s.nextReminderId, document_id := doc.id, user_id := doc.user_id,
               reminder_date := today,
               reminder_type := getReminderType (doc.expiration_date - today),
               is_sent := true }],
          activity_logs := s.activity_logs ++
            [{ user_id := doc.user_id, action_type := "reminder_sent",
               description := reminderSentDescription doc.title (doc.expiration_date - today),
               related_document_id := some doc.id }],
          nextReminderId := s.nextReminderId + 1 }
      else
        { reminders := s.reminders ++
            [{ id := s.nextReminderId, document_id := doc.id, user_id := doc.user_id,
               reminder_date := today,
               reminder_type := getReminderType (doc.expiration_date - today),
               is_sent := false }],
          activity_logs := s.activity_logs,
          nextReminderId := s.nextReminderId + 1 } := by
  cases hb : (sendNotification env o.send doc (doc.expiration_date - today)).1
  · simp [processDocumentReminder, processDocumentReminderBody, hdue, hnodup, hq,
      hins, hupd, hlog, hb]
  · simp only [processDocumentReminder, processDocumentReminderBody, hdue, hnodup, hq,
      hins, hupd, hlog, hb, Bool.not_true, Bool.false_eq_true, if_false, if_true]
    rw [markReminderSent_append_fresh s.reminders s.nextReminderId doc.id doc.user_id
      today (getReminderType (doc.expiration_date - today)) hfresh]

/-- C8 witness: a concrete due email-channel document on empty tables ends
with one sent row and one `reminder_sent` activity entry. -/
theorem c8_witness :
    processDocumentReminder envAll docOracleHealthy docEmail7 0 emptyDB =
      { reminders := [sentRow10], activity_logs := [sentLogRow10],
        nextReminderId := 2 } := by
  have h := c8_row_and_log_iff_success envAll docOracleHealthy docEmail7 0 emptyDB
    (by decide) (by decide) rfl rfl rfl rfl (by decide)
  rw [h]
  decide

/-- C9: the manual test-reminder entry point writes nothing — the database
state it returns is its input — and its boolean result is exactly the bare
`sendNotification` outcome for the looked-up document (false when the lookup
throws or finds nothing), with no due-check and no dedup consulted. -/
theorem c9_test_reminder_writes_nothing (env : WorkerEnv) (o : SendOracle)
    (queryThrows : Bool) (lookupResult : Option DocRow) (daysUntilExpiry : Int)
    (s : DBState) :
    (sendTestReminder env o queryThrows lookupResult daysUntilExpiry s).2 = s ∧
    (sendTestReminder env o queryThrows lookupResult daysUntilExpiry s).1 =
      (match lookupResult with
       | none => false
       | some doc =>
         if queryThrows then false else (sendNotification env o doc daysUntilExpiry).1) := by
  cases queryThrows <;> cases lookupResult <;> simp [sendTestReminder]

/-- C3 evaluation: with whatsapp preferred, no phone on file, an email
address available and a healthy email transport, `sendNotification` returns
false having attempted no delivery at all — while a direct email send would
have succeeded. The empty-address guard before the `switch` fires first;
the whatsapp-case email fallback is unreachable. -/
theorem c3_whatsapp_no_phone_eval :
    sendNotification envAll sendOracleAllOk docNoPhone 5 = (false, []) ∧
    sendEmailNotification envAll sendOracleAllOk.emailFetch docNoPhone.email =
      (true, [{ channel := Channel.email, toAddr := "user@example.com" }]) := by
  decide

/-- C4 counterexample: whatsapp preferred and configured, valid phone, the
WhatsApp API reports failure, an email address exists and the email
transport would succeed — yet the overall result is false and zero email
fallback attempts are made, contradicting the claimed exactly-one fallback
whose result the send returns. -/
theorem c4_counterexample_no_email_fallback :
    (sendNotification envAll sendOracleWhatsAppDown docWithPhone 5).1 = false ∧
    ((sendNotification envAll sendOracleWhatsAppDown docWithPhone 5).2.filter
        (fun a => a.channel == Channel.email)).length = 0 ∧
    sendEmailNotification envAll sendOracleWhatsAppDown.emailFetch docWithPhone.email =
      (true, [{ channel := Channel.email, toAddr := "user@example.com" }]) := by
  decide

/-- C4 amended: on a non-email preferred channel no email fallback attempt
is ever made (the transports catch their own errors and return false, so
the catch-based fallback is unreachable); whenever the used channel's own
fetch did not succeed the overall send result is false, and success is
reported only when that channel's own fetch succeeded. -/
theorem c4_amended_no_fallback_on_reported_failure (env : WorkerEnv) (o : SendOracle)
    (doc : DocRow) (d : Int)
    (h : jsOrString doc.preferred_reminder_channel "email" = "whatsapp" ∨
         jsOrString doc.preferred_reminder_channel "email" = "sms") :
    (∀ a ∈ (sendNotification env o doc d).2, a.channel ≠ Channel.email) ∧
    ((if jsOrString doc.preferred_reminder_channel "email" = "whatsapp"
        then o.whatsappFetch else o.smsFetch) ≠ FetchResult.ok →
      (sendNotification env o doc d).1 = false) ∧
    ((sendNotification env o doc d).1 = true →
      (if jsOrString doc.preferred_reminder_channel "email" = "whatsapp"
        then o.whatsappFetch else o.smsFetch) = FetchResult.ok) := by
  have bool_neg : ∀ (b : Bool) (p : Prop), (b = true → p) → ¬p → b = false := by
    intro b p hbp hnp
    cases b
    · rfl
    · exact absurd (hbp rfl) hnp
  have hw : ∀ (fr : FetchResult) (t : String),
      (∀ a ∈ (sendWhatsAppNotification env fr t).2, a.channel ≠ Channel.email) ∧
      ((sendWhatsAppNotification env fr t).1 = true → fr = FetchResult.ok) := by
    intro fr t
    unfold sendWhatsAppNotification
    by_cases hcred : (!env.whatsappAccessToken || !env.whatsappPhoneNumberId) = true
    · simp [hcred]
    · by_cases hp : formatPhoneNumber t = ""
      · simp [hcred, hp]
      · cases fr <;> simp [hcred, hp]
  have hsms : ∀ (fr : FetchResult) (t : String),
      (∀ a ∈ (sendSMSNotification env fr t).2, a.channel ≠ Channel.email) ∧
      ((sendSMSNotification env fr t).1 = true → fr = FetchResult.ok) := by
    intro fr t
    unfold sendSMSNotification
    by_cases hcred : (!env.twilioAccountSid || !env.twilioAuthToken || !env.twilioPhoneNumber) = true
    · simp [hcred]
    · by_cases hp : formatPhoneNumber t = ""
      · simp [hcred, hp]
      · cases fr <;> simp [hcred, hp]
  rcases h with h | h
  · simp only [sendNotification, h, if_pos rfl, reduceIte]
    by_cases hta : getNotificationAddress doc "whatsapp" = ""
    · simp [hta]
    · simp only [hta, if_neg, if_false, if_pos rfl, reduceIte]
      refine ⟨(hw o.whatsappFetch _).1, ?_, fun hres => (hw o.whatsappFetch _).2 hres⟩
      intro hne
      exact bool_neg _ _ (hw o.whatsappFetch _).2 hne
  · have hne2 : ¬(("sms" : String) = "whatsapp") := by decide
    simp only [sendNotification, h, hne2, if_false, if_pos rfl, reduceIte]
    by_cases hta : getNotificationAddress doc "sms" = ""
    · simp [hta]
    · simp only [hta, if_neg, if_false, if_pos rfl, reduceIte]
      refine ⟨(hsms o.smsFetch _).1, ?_, fun hres => (hsms o.smsFetch _).2 hres⟩
      intro hne
      exact bool_neg _ _ (hsms o.smsFetch _).2 hne

/-- C4 amended witness: the concrete scenario of a whatsapp-channel document
whose WhatsApp fetch reported failure makes no email attempt and its overall
result is false. -/
theorem c4_amended_witness :
    (∀ a ∈ (sendNotification envAll sendOracleWhatsAppDown docWithPhone 5).2,
        a.channel ≠ Channel.email) ∧
    ((if jsOrString docWithPhone.preferred_reminder_channel "email" = "whatsapp"
        then sendOracleWhatsAppDown.whatsappFetch
        else sendOracleWhatsAppDown.smsFetch) ≠ FetchResult.ok →
      (sendNotification envAll sendOracleWhatsAppDown docWithPhone 5).1 = false) ∧
    ((sendNotification envAll sendOracleWhatsAppDown docWithPhone 5).1 = true →
      (if jsOrString docWithPhone.preferred_reminder_channel "email" = "whatsapp"
        then sendOracleWhatsAppDown.whatsappFetch
        else sendOracleWhatsAppDown.smsFetch) = FetchResult.ok) :=
  c4_amended_no_fallback_on_reported_failure envAll sendOracleWhatsAppDown docWithPhone 5
    (Or.inl (by decide))

end VaultDue
